import Mathlib

/-!
Verification of the SpiceLink classification pipeline (src/app.py).

The app is a Streamlit demo that classifies a photo of an Indonesian spice
rhizome into one of four classes using a pretrained MobileNet model.  The
embedding below translates the configuration tables and the `classify`
handler (src/app.py lines 9-14 and 92-126), the Streamlit resource cache
semantics backing `load_model` (`st.cache_resource(max_entries=4)`, which is
an access-ordered LRU cache of capacity 4, built on `cachetools.TTLCache`),
and the keras preprocessing (`load_img` with a fixed target size followed by
`img_to_array(...) / 255.0`).
-/

namespace SpiceLink

/-! ## Configuration (src/app.py lines 9-14) -/

/-- Names of selectable models mapped to their artifact paths
(`MODEL_OPTIONS`, src/app.py lines 9-12). -/
def MODEL_OPTIONS : List (String × String) :=
  [("MobileNetV1", "MobileNetV1_no_dropout.h5"),
   ("MobileNetV2", "MobileNetV2_no_dropout.h5")]

/-- Class-index to label table (`CLASS_MAPPING`, src/app.py line 13). -/
def CLASS_MAPPING : List (Nat × String) :=
  [(0, "Jahe"), (1, "Kencur"), (2, "Kunyit"), (3, "Lengkuas")]

/-- `TARGET_SIZE` (src/app.py line 14): resolution the uploaded image is
resized to before inference. -/
def TARGET_SIZE : Nat × Nat := (224, 224)

/-- Python dict lookup `CLASS_MAPPING[idx]`: `none` models a `KeyError`. -/
def classLabel (i : Nat) : Option String :=
  (CLASS_MAPPING.find? (fun p => p.1 == i)).map Prod.snd

/-- Inverse direction of the class table: index of a label, if present. -/
def labelIndex (l : String) : Option Nat :=
  (CLASS_MAPPING.find? (fun p => p.2 == l)).map Prod.fst

/-- Registry lookup `MODEL_OPTIONS[model_name]` (src/app.py line 98):
`none` models the `KeyError` raised for a name outside the table.  A pure
table lookup with no side effects. -/
def resolveModel (name : String) : Option String :=
  (MODEL_OPTIONS.find? (fun p => p.1 == name)).map Prod.snd

/-! ## Arg-max and label resolution (src/app.py lines 117-120) -/

/-- Scan of the tail of a probability vector keeping the best index/value
pair seen so far; advances only on a strictly larger value, so the first
occurrence of the maximum wins, matching `np.argmax`. -/
def argmaxAux : List ℚ → Nat → Nat → ℚ → Nat
  | [], _, bi, _ => bi
  | x :: xs, i, bi, bv => if bv < x then argmaxAux xs (i + 1) i x else argmaxAux xs (i + 1) bi bv

/-- `np.argmax` over a probability vector: index of the first occurrence of
the maximum (0 on an empty vector, as a placeholder never reached by the
app, which always has 4 probabilities). -/
def np_argmax : List ℚ → Nat
  | [] => 0
  | x :: xs => argmaxAux xs 1 0 x

/-- Result of src/app.py lines 118-120: `idx`, `label`, `confidence`. -/
structure PredictionOutput where
  idx : Nat
  label : Option String
  confidence : ℚ
  deriving DecidableEq

/-- Lines 118-120 of src/app.py:
`idx = int(np.argmax(probs)); label = CLASS_MAPPING[idx]; confidence = probs[idx]`. -/
def classifyResult (probs : List ℚ) : PredictionOutput :=
  let idx := np_argmax probs
  { idx := idx, label := classLabel idx, confidence := probs.getD idx 0 }

/-- Claim C7: the index-to-label mapping is a total bijection between the
indices 0-3 and the four labels Jahe, Kencur, Kunyit, Lengkuas: every valid
index resolves to a label whose index is the original one, the four labels
are exactly the table's values, and resolving the label of each table entry
round-trips. -/
theorem class_mapping_bijection :
    (∀ i : Fin 4, ((classLabel i.val).bind labelIndex) = some i.val)
    ∧ CLASS_MAPPING.map Prod.snd = ["Jahe", "Kencur", "Kunyit", "Lengkuas"]
    ∧ (∀ i : Fin 4,
        ((labelIndex ((CLASS_MAPPING.map Prod.snd).getD i.val "")).bind classLabel)
          = some ((CLASS_MAPPING.map Prod.snd).getD i.val "")) := by
  decide

/-- Claim C1: for every 4-element probability distribution, the pipeline of
src/app.py lines 117-120 selects the arg-max index (first occurrence of the
maximum, hence ties broken by the lowest index), maps it through
`CLASS_MAPPING` (the lookup never fails), and reports confidence equal to
the distribution at the arg-max index. -/
theorem classify_argmax_correct (a b c d : ℚ) :
    np_argmax [a, b, c, d] < 4
    ∧ (∀ j : Fin 4, [a, b, c, d].getD j.val 0 ≤ [a, b, c, d].getD (np_argmax [a, b, c, d]) 0)
    ∧ (∀ j : Fin 4, j.val < np_argmax [a, b, c, d] →
        [a, b, c, d].getD j.val 0 < [a, b, c, d].getD (np_argmax [a, b, c, d]) 0)
    ∧ (classifyResult [a, b, c, d]).label = classLabel (np_argmax [a, b, c, d])
    ∧ (classLabel (np_argmax [a, b, c, d])).isSome = true
    ∧ (classifyResult [a, b, c, d]).confidence = [a, b, c, d].getD (np_argmax [a, b, c, d]) 0 := by
  simp only [classifyResult, np_argmax, argmaxAux]
  split_ifs <;>
    refine ⟨by norm_num, fun j => ?_, fun j hj => ?_, by trivial, by decide, by trivial⟩ <;>
    fin_cases j <;>
    simp_all [List.getD] <;>
    linarith

/-- Instance of `classify_argmax_correct` at a concrete distribution with a
tie between indices 1 and 2: the first occurrence wins. -/
theorem classify_argmax_correct_witness :
    np_argmax [(1 : ℚ)/10, 2/5, 2/5, 1/10] < 4
    ∧ (classifyResult [(1 : ℚ)/10, 2/5, 2/5, 1/10]).confidence
        = [(1 : ℚ)/10, 2/5, 2/5, 1/10].getD (np_argmax [(1 : ℚ)/10, 2/5, 2/5, 1/10]) 0 :=
  ⟨(classify_argmax_correct (1/10) (2/5) (2/5) (1/10)).1,
   (classify_argmax_correct (1/10) (2/5) (2/5) (1/10)).2.2.2.2.2⟩

/-! ## Model cache (src/app.py lines 26-33)

`load_model` is decorated with `st.cache_resource(show_spinner=False,
max_entries=4)`.  Streamlit backs this decorator with a
`cachetools.TTLCache` of `maxsize = max_entries` (ttl unbounded here),
which is an access-ordered LRU cache: a hit moves the entry to the
most-recent position, and inserting past capacity evicts the
least-recently-used entry.  The body of `load_model` calls
`tf.keras.models.load_model(path)`; on an exception it calls `st.error`
and returns `None`, and Streamlit caches whatever the body returned —
including that `None`.

The state below keeps the entries in most-recent-first order.  A loaded
instance is identified by the value of the global load counter at the
moment `tf.keras.models.load_model` was invoked, so equal identifiers mean
the identical in-memory instance.  `lo : String → Bool` models the
environment: whether loading the artifact at a path succeeds. -/

/-- The cross-request state of Streamlit's resource cache for `load_model`:
entries in most-recent-first order (a value of `none` is a cached failed
load), the number of invocations of the underlying
`tf.keras.models.load_model`, and the number of `st.error` messages shown. -/
structure CacheState where
  entries : List (String × Option Nat)
  loadCount : Nat
  errors : Nat
  deriving DecidableEq

/-- `max_entries=4` from the `st.cache_resource` decorator on line 26. -/
def MAX_ENTRIES : Nat := 4

/-- Cache membership test: value stored for a path, if present. -/
def cacheFind (entries : List (String × Option Nat)) (path : String) : Option (Option Nat) :=
  (entries.find? (fun e => e.1 == path)).map Prod.snd

/-- The state of the cache before process start: empty, nothing loaded. -/
def initialCache : CacheState := ⟨[], 0, 0⟩

/-- One call `load_model(path)` through the Streamlit cache.  On a hit the
stored value is returned and the entry moves to the most-recent position;
on a miss the body runs: `tf.keras.models.load_model` is invoked (the load
counter becomes the new instance identifier on success; on failure
`st.error` is shown and `None` is stored), the result is cached at the
most-recent position, and only the `MAX_ENTRIES - 1` most recent old
entries are kept, evicting the least recently used beyond capacity. -/
def cacheGet (lo : String → Bool) (s : CacheState) (path : String) :
    Option Nat × CacheState :=
  match cacheFind s.entries path with
  | some v =>
      (v, { s with entries := (path, v) :: s.entries.eraseP (fun e => e.1 == path) })
  | none =>
      let v : Option Nat := if lo path then some s.loadCount else none
      (v, { entries := (path, v) :: s.entries.take (MAX_ENTRIES - 1),
            loadCount := s.loadCount + 1,
            errors := s.errors + (if lo path then 0 else 1) })

/-- Run a sequence of `load_model` calls, threading the cache state. -/
def runGets (lo : String → Bool) (ps : List String) (s : CacheState) : CacheState :=
  ps.foldl (fun s p => (cacheGet lo s p).2) s

theorem cacheGet_entries_head (lo : String → Bool) (s : CacheState) (p : String) :
    ∃ tl, (cacheGet lo s p).2.entries = (p, (cacheGet lo s p).1) :: tl := by
  unfold cacheGet
  cases h : cacheFind s.entries p <;> simp

theorem cacheFind_cons_self (v : Option Nat) (tl : List (String × Option Nat)) (p : String) :
    cacheFind ((p, v) :: tl) p = some v := by
  simp [cacheFind, List.find?]

/-- Claim C3: the cache is memoizing and idempotent.  A second consecutive
`load_model(path)` call returns the value of the first (the identical
instance identifier, hence the identical in-memory model) and does not
invoke the underlying load routine again; moreover any call for a path
already present in the cache leaves the load counter unchanged, so the
load routine runs at most once per distinct path while its entry lives. -/
theorem cache_memoizes (lo : String → Bool) (s : CacheState) (p : String) :
    (cacheGet lo (cacheGet lo s p).2 p).1 = (cacheGet lo s p).1
    ∧ (cacheGet lo (cacheGet lo s p).2 p).2.loadCount = (cacheGet lo s p).2.loadCount
    ∧ (∀ v, cacheFind s.entries p = some v →
        (cacheGet lo s p).1 = v ∧ (cacheGet lo s p).2.loadCount = s.loadCount) := by
  refine ⟨?_, ?_, ?_⟩
  · obtain ⟨tl, htl⟩ := cacheGet_entries_head lo s p
    conv_lhs => rw [cacheGet, htl, cacheFind_cons_self]
  · obtain ⟨tl, htl⟩ := cacheGet_entries_head lo s p
    conv_lhs => rw [cacheGet, htl, cacheFind_cons_self]
  · intro v hv
    rw [cacheGet, hv]
    exact ⟨rfl, rfl⟩

/-- Instance of `cache_memoizes` from the empty cache on the MobileNetV1
artifact path with a load environment where every load succeeds. -/
theorem cache_memoizes_witness :
    (cacheGet (fun _ => true)
        (cacheGet (fun _ => true) initialCache "MobileNetV1_no_dropout.h5").2
        "MobileNetV1_no_dropout.h5").1
      = (cacheGet (fun _ => true) initialCache "MobileNetV1_no_dropout.h5").1
    ∧ cacheFind
        (cacheGet (fun _ => true) initialCache "MobileNetV1_no_dropout.h5").2.entries
        "MobileNetV1_no_dropout.h5" = some (some 0)
    ∧ (cacheGet (fun _ => true)
        (cacheGet (fun _ => true) initialCache "MobileNetV1_no_dropout.h5").2
        "MobileNetV1_no_dropout.h5").1 = some 0
    ∧ (cacheGet (fun _ => true)
        (cacheGet (fun _ => true) initialCache "MobileNetV1_no_dropout.h5").2
        "MobileNetV1_no_dropout.h5").2.loadCount = 1 :=
  ⟨(cache_memoizes (fun _ => true) initialCache "MobileNetV1_no_dropout.h5").1,
   by decide, by decide,
   ((cache_memoizes (fun _ => true)
      (cacheGet (fun _ => true) initialCache "MobileNetV1_no_dropout.h5").2
      "MobileNetV1_no_dropout.h5").2.2 (some 0) (by decide)).2⟩

/-- Claim C4 counterexample: with an environment where loading the
MobileNetV1 artifact always fails, the first `load_model` call invokes the
underlying load routine once and caches the returned `None`; a second call
for the same path leaves the load counter at 1, so the load is NOT
re-attempted — the failure is negatively cached, contradicting the claim
that a subsequent request re-attempts the load. -/
theorem failed_load_negatively_cached_counterexample :
    (cacheGet (fun _ => false) initialCache "MobileNetV1_no_dropout.h5").2.loadCount = 1
    ∧ (cacheGet (fun _ => false)
        (cacheGet (fun _ => false) initialCache "MobileNetV1_no_dropout.h5").2
        "MobileNetV1_no_dropout.h5").2.loadCount = 1
    ∧ ¬ ((cacheGet (fun _ => false)
        (cacheGet (fun _ => false) initialCache "MobileNetV1_no_dropout.h5").2
        "MobileNetV1_no_dropout.h5").2.loadCount = 2) := by
  decide

/-- Claim C4 (amended): when loading a model artifact fails on a fresh
path, no usable model is returned, an `st.error` message is shown (the
error is surfaced without crashing the process: `cacheGet` is total), and
the `None` result is cached, so a subsequent request for the same path
returns the cached `None` without re-attempting the load while the entry
lives. -/
theorem model_load_failure_cached (lo : String → Bool) (s : CacheState) (p : String)
    (hfail : lo p = false) (hmiss : cacheFind s.entries p = none) :
    (cacheGet lo s p).1 = none
    ∧ (cacheGet lo s p).2.errors = s.errors + 1
    ∧ (cacheGet lo s p).2.loadCount = s.loadCount + 1
    ∧ (cacheGet lo (cacheGet lo s p).2 p).1 = none
    ∧ (cacheGet lo (cacheGet lo s p).2 p).2.loadCount = s.loadCount + 1 := by
  have h1 : cacheGet lo s p =
      (none, { entries := (p, none) :: s.entries.take (MAX_ENTRIES - 1),
               loadCount := s.loadCount + 1, errors := s.errors + 1 }) := by
    simp [cacheGet, hmiss, hfail]
  refine ⟨by rw [h1], by rw [h1], by rw [h1], ?_, ?_⟩
  · rw [h1]
    simp [cacheGet, cacheFind_cons_self]
  · rw [h1]
    simp [cacheGet, cacheFind_cons_self]

/-- Instance of `model_load_failure_cached` on the empty cache with an
always-failing load environment. -/
theorem model_load_failure_cached_witness :
    (cacheGet (fun _ => false) initialCache "MobileNetV1_no_dropout.h5").2.errors = 1
    ∧ (cacheGet (fun _ => false)
        (cacheGet (fun _ => false) initialCache "MobileNetV1_no_dropout.h5").2
        "MobileNetV1_no_dropout.h5").2.loadCount = 1 :=
  ⟨(model_load_failure_cached (fun _ => false) initialCache
      "MobileNetV1_no_dropout.h5" rfl rfl).2.1,
   (model_load_failure_cached (fun _ => false) initialCache
      "MobileNetV1_no_dropout.h5" rfl rfl).2.2.2.2⟩

theorem length_eraseP_succ_le {α : Type} (q : α → Bool) (l : List α)
    (h : (l.find? q).isSome) : (l.eraseP q).length + 1 ≤ l.length := by
  induction l with
  | nil => simp [List.find?] at h
  | cons x xs ih =>
    cases hx : q x with
    | true =>
      rw [List.eraseP_cons_of_pos hx]
      simp
    | false =>
      rw [List.find?_cons_of_neg _ (by simp [hx])] at h
      rw [List.eraseP_cons_of_neg (by simp [hx])]
      have := ih h
      simp only [List.length_cons]
      omega

theorem cacheGet_length_le (lo : String → Bool) (s : CacheState) (p : String)
    (h : s.entries.length ≤ MAX_ENTRIES) :
    (cacheGet lo s p).2.entries.length ≤ MAX_ENTRIES := by
  cases hf : cacheFind s.entries p with
  | none =>
    simp only [cacheGet, hf, List.length_cons, List.length_take]
    have : min (MAX_ENTRIES - 1) s.entries.length ≤ MAX_ENTRIES - 1 :=
      Nat.min_le_left _ _
    simp only [MAX_ENTRIES] at this ⊢
    omega
  | some v =>
    have hs : (s.entries.find? (fun e => e.1 == p)).isSome := by
      unfold cacheFind at hf
      cases hfind : s.entries.find? (fun e => e.1 == p) <;> simp [hfind] at hf ⊢
    have := length_eraseP_succ_le (fun e => e.1 == p) s.entries hs
    simp only [cacheGet, hf, List.length_cons]
    omega

theorem runGets_length_le (lo : String → Bool) (ps : List String) :
    ∀ s : CacheState, s.entries.length ≤ MAX_ENTRIES →
      (runGets lo ps s).entries.length ≤ MAX_ENTRIES := by
  induction ps with
  | nil => intro s h; exact h
  | cons p ps ih => intro s h; exact ih _ (cacheGet_length_le lo s p h)

theorem cacheFind_cons_ne (q p : String) (v : Option Nat)
    (tl : List (String × Option Nat)) (h : q ≠ p) :
    cacheFind ((q, v) :: tl) p = cacheFind tl p := by
  unfold cacheFind
  rw [List.find?_cons_of_neg _ (by simpa using h)]

/-- Claim C8: the cache never holds more than 4 entries, and requesting a
5th distinct path evicts the least-recently-used entry: after gets on five
pairwise distinct fresh paths the cache holds exactly the four most recent
in recency order, the first path is no longer present, and a further get
for it must invoke the load routine again. -/
theorem cache_lru_eviction (lo : String → Bool) (p1 p2 p3 p4 p5 : String)
    (h12 : p1 ≠ p2) (h13 : p1 ≠ p3) (h14 : p1 ≠ p4) (h15 : p1 ≠ p5)
    (h23 : p2 ≠ p3) (h24 : p2 ≠ p4) (h25 : p2 ≠ p5)
    (h34 : p3 ≠ p4) (h35 : p3 ≠ p5) (h45 : p4 ≠ p5) :
    (∀ ps : List String, (runGets lo ps initialCache).entries.length ≤ MAX_ENTRIES)
    ∧ (runGets lo [p1, p2, p3, p4, p5] initialCache).entries.map Prod.fst
        = [p5, p4, p3, p2]
    ∧ cacheFind (runGets lo [p1, p2, p3, p4, p5] initialCache).entries p1 = none
    ∧ (cacheGet lo (runGets lo [p1, p2, p3, p4, p5] initialCache) p1).2.loadCount
        = (runGets lo [p1, p2, p3, p4, p5] initialCache).loadCount + 1 := by
  have b12 := beq_eq_false_iff_ne.mpr h12
  have b13 := beq_eq_false_iff_ne.mpr h13
  have b14 := beq_eq_false_iff_ne.mpr h14
  have b23 := beq_eq_false_iff_ne.mpr h23
  have b24 := beq_eq_false_iff_ne.mpr h24
  have b34 := beq_eq_false_iff_ne.mpr h34
  have b15 := beq_eq_false_iff_ne.mpr h15
  have b25 := beq_eq_false_iff_ne.mpr h25
  have b35 := beq_eq_false_iff_ne.mpr h35
  have b45 := beq_eq_false_iff_ne.mpr h45
  have b21 := beq_eq_false_iff_ne.mpr h12.symm
  have b31 := beq_eq_false_iff_ne.mpr h13.symm
  have b41 := beq_eq_false_iff_ne.mpr h14.symm
  have b51 := beq_eq_false_iff_ne.mpr h15.symm
  refine ⟨fun ps => runGets_length_le lo ps initialCache (by simp [initialCache, MAX_ENTRIES]), ?_, ?_, ?_⟩ <;>
    simp [runGets, initialCache, cacheGet, cacheFind, List.find?, MAX_ENTRIES,
      b12, b13, b14, b15, b23, b24, b25, b34, b35, b45, b21, b31, b41, b51]

/-- Instance of `cache_lru_eviction` on five concrete distinct paths. -/
theorem cache_lru_eviction_witness :
    cacheFind (runGets (fun _ => true) ["a", "b", "c", "d", "e"] initialCache).entries "a"
      = none
    ∧ (cacheGet (fun _ => true)
        (runGets (fun _ => true) ["a", "b", "c", "d", "e"] initialCache) "a").2.loadCount
      = (runGets (fun _ => true) ["a", "b", "c", "d", "e"] initialCache).loadCount + 1 :=
  ⟨(cache_lru_eviction (fun _ => true) "a" "b" "c" "d" "e"
      (by decide) (by decide) (by decide) (by decide) (by decide)
      (by decide) (by decide) (by decide) (by decide) (by decide)).2.2.1,
   (cache_lru_eviction (fun _ => true) "a" "b" "c" "d" "e"
      (by decide) (by decide) (by decide) (by decide) (by decide)
      (by decide) (by decide) (by decide) (by decide) (by decide)).2.2.2⟩

/-! ## Image preprocessing (src/app.py lines 112-113)

`img = load_img(uploaded, target_size=TARGET_SIZE)` decodes the upload,
converts it to RGB and resizes it to exactly 224x224 with keras's default
nearest-neighbour interpolation; `arr = img_to_array(img) / 255.0` turns it
into a height-by-width-by-3 array of intensities divided by 255. -/

/-- A successfully decoded RGB image: its dimensions and a total pixel
function giving the intensity of each channel at each coordinate. -/
structure DecodedImage where
  width : Nat
  height : Nat
  pixel : Nat → Nat → Fin 3 → Nat

/-- A decoded 8-bit RGB image has every channel intensity in 0..255. -/
def validImage (img : DecodedImage) : Prop :=
  ∀ x y c, img.pixel x y c ≤ 255

/-- Source coordinate sampled by nearest-neighbour resizing (keras
`load_img` default interpolation), clamped in bounds. -/
def nearestIndex (outI outN inN : Nat) : Nat :=
  min (outI * inN / outN) (inN - 1)

/-- `load_img(uploaded, target_size=TARGET_SIZE)`: the decoded image
resized to exactly the target width and height, each output pixel sampled
from the source image. -/
def load_img (img : DecodedImage) (target : Nat × Nat) : DecodedImage :=
  { width := target.1, height := target.2,
    pixel := fun x y c =>
      img.pixel (nearestIndex x target.1 img.width) (nearestIndex y target.2 img.height) c }

/-- keras `img_to_array`: a height-by-width-by-3 nested array of the
integer channel intensities. -/
def img_to_array (img : DecodedImage) : List (List (List Nat)) :=
  (List.range img.height).map fun y =>
    (List.range img.width).map fun x =>
      (List.finRange 3).map fun c => img.pixel x y c

/-- The `/ 255.0` on src/app.py line 113, applied elementwise. -/
def normalizeArray (a : List (List (List Nat))) : List (List (List ℚ)) :=
  a.map fun row => row.map fun px => px.map fun (v : Nat) => (v : ℚ) / 255

/-- Lines 112-113 of src/app.py: decode-and-resize then normalize. -/
def prepare (img : DecodedImage) : List (List (List ℚ)) :=
  normalizeArray (img_to_array (load_img img TARGET_SIZE))

/-- Claim C2: for every successfully decoded image, whatever its original
dimensions or aspect ratio, preprocessing yields a tensor of exactly shape
224x224x3 whose entries all lie in the interval 0..1, each being a native
0..255 integer intensity divided by 255. -/
theorem prepare_eq (img : DecodedImage) :
    prepare img = (List.range 224).map fun y => (List.range 224).map fun x =>
      (List.finRange 3).map fun c =>
        ((img.pixel (nearestIndex x 224 img.width) (nearestIndex y 224 img.height) c : ℚ) / 255) := by
  unfold prepare normalizeArray img_to_array load_img TARGET_SIZE
  simp [List.map_map, Function.comp_def]

/-- Claim C2: for every successfully decoded image, whatever its original
dimensions or aspect ratio, preprocessing yields a tensor of exactly shape
224x224x3 whose entries all lie in the interval 0..1, each being a native
0..255 integer intensity divided by 255. -/
theorem prepare_shape_range (img : DecodedImage) (hv : validImage img) :
    (prepare img).length = 224
    ∧ ∀ row ∈ prepare img, row.length = 224
        ∧ ∀ px ∈ row, px.length = 3
          ∧ ∀ v ∈ px, 0 ≤ v ∧ v ≤ 1 ∧ ∃ n : Nat, n ≤ 255 ∧ v = (n : ℚ) / 255 := by
  rw [prepare_eq]
  constructor
  · simp
  · intro row hrow
    obtain ⟨y, hy, rfl⟩ := List.mem_map.mp hrow
    refine ⟨by simp, ?_⟩
    intro px hpx
    obtain ⟨x, hx, rfl⟩ := List.mem_map.mp hpx
    refine ⟨by simp, ?_⟩
    intro v hvmem
    obtain ⟨c, hc, rfl⟩ := List.mem_map.mp hvmem
    refine ⟨by positivity, ?_, img.pixel _ _ c, hv _ _ c, rfl⟩
    rw [div_le_one (by norm_num)]
    exact_mod_cast hv _ _ c

/-- A concrete 640x480 decoded image with every channel at intensity 128. -/
def constImage : DecodedImage := ⟨640, 480, fun _ _ _ => 128⟩

/-- Instance of `prepare_shape_range` on `constImage`: it is a valid image
and its preprocessed tensor has 224 rows. -/
theorem prepare_shape_range_witness :
    validImage constImage ∧ (prepare constImage).length = 224 :=
  ⟨fun _ _ _ => by norm_num [constImage],
   (prepare_shape_range constImage (fun _ _ _ => by norm_num [constImage])).1⟩

/-! ## The classify handler (src/app.py lines 92-126)

`classify()` resolves the selected name through `MODEL_OPTIONS` (line 98, a
plain dict lookup raising `KeyError` for an unknown name, before any file
access), loads the model through the cache (line 101) and returns early if
it is `None` (lines 102-103), offers the file uploader (line 106) and
returns with an info message if nothing was uploaded (lines 107-109),
decodes and preprocesses the upload (lines 112-113, where an invalid image
raises a decode exception from `load_img`), and finally runs the forward
pass and arg-max labelling (lines 117-120).

The uploaded file is modelled by what it decodes to: `none` means no file
was uploaded, `some none` an upload that is not a valid image, and
`some (some img)` a valid upload decoding to `img`.  The model's forward
pass is an external pretrained artifact, so its output distribution is a
parameter `modelOutput`.  `Except.error` models an exception escaping the
`classify()` function. -/

/-- Exceptions that can escape `classify()`. -/
inductive ClassifyError where
  | unknownModel
  | decodeError
  deriving DecidableEq

/-- The ways `classify()` returns normally. -/
inductive ClassifyOutcome where
  | abortedNoModel
  | promptUpload
  | success (r : PredictionOutput)
  deriving DecidableEq

/-- Which stages of the handler ran during a request. -/
structure ClassifyTrace where
  uploadOffered : Bool
  decodeAttempted : Bool
  predictInvoked : Bool
  deriving DecidableEq

/-- The `classify()` handler of src/app.py lines 92-126. -/
def classify (name : String) (upload : Option (Option DecodedImage))
    (lo : String → Bool) (modelOutput : List ℚ) (s : CacheState) :
    Except ClassifyError ClassifyOutcome × ClassifyTrace × CacheState :=
  match resolveModel name with
  | none => (Except.error ClassifyError.unknownModel, ⟨false, false, false⟩, s)
  | some path =>
      match cacheGet lo s path with
      | (none, s1) => (Except.ok ClassifyOutcome.abortedNoModel, ⟨false, false, false⟩, s1)
      | (some _, s1) =>
          match upload with
          | none => (Except.ok ClassifyOutcome.promptUpload, ⟨true, false, false⟩, s1)
          | some none => (Except.error ClassifyError.decodeError, ⟨true, true, false⟩, s1)
          | some (some _img) =>
              (Except.ok (ClassifyOutcome.success (classifyResult modelOutput)),
               ⟨true, true, true⟩, s1)

/-- The message rendered for each normal return of `classify()`. -/
def renderOutcome : ClassifyOutcome → String
  | ClassifyOutcome.abortedNoModel => "Error loading model"
  | ClassifyOutcome.promptUpload => "Silakan unggah gambar terlebih dahulu."
  | ClassifyOutcome.success _ => "Classification result"

/-- The message rendered for an exception escaping `classify()`. -/
def renderError : ClassifyError → String
  | ClassifyError.unknownModel => "KeyError"
  | ClassifyError.decodeError => "UnidentifiedImageError"

/-- The Streamlit script runner around `classify()`: it catches any
exception the script raises and renders it as an on-page error message, so
no request failure escapes as a process-level crash.  Total by
construction. -/
def runBoundary (name : String) (upload : Option (Option DecodedImage))
    (lo : String → Bool) (modelOutput : List ℚ) (s : CacheState) : String :=
  match (classify name upload lo modelOutput s).1 with
  | Except.error e => renderError e
  | Except.ok o => renderOutcome o

/-- Claim C5: for every model name outside the configured set, the registry
lookup fails (a `KeyError`, modelled as `unknownModel`), and the request
ends with the cache state untouched — in particular no load, hence no file
I/O, has happened. -/
theorem unknown_model_fails_before_io (name : String)
    (upload : Option (Option DecodedImage)) (lo : String → Bool)
    (mo : List ℚ) (s : CacheState)
    (h1 : name ≠ "MobileNetV1") (h2 : name ≠ "MobileNetV2") :
    resolveModel name = none
    ∧ (classify name upload lo mo s).1 = Except.error ClassifyError.unknownModel
    ∧ (classify name upload lo mo s).2.2 = s
    ∧ (classify name upload lo mo s).2.2.loadCount = s.loadCount := by
  have hres : resolveModel name = none := by
    unfold resolveModel MODEL_OPTIONS
    rw [List.find?_cons_of_neg _ (by simpa using h1.symm),
      List.find?_cons_of_neg _ (by simpa using h2.symm)]
    rfl
  refine ⟨hres, ?_, ?_, ?_⟩ <;> simp [classify, hres]

/-- Instance of `unknown_model_fails_before_io` at the unconfigured name
MobileNetV3 from the empty cache. -/
theorem unknown_model_fails_before_io_witness :
    resolveModel "MobileNetV3" = none
    ∧ (classify "MobileNetV3" none (fun _ => true) [] initialCache).1
        = Except.error ClassifyError.unknownModel :=
  ⟨(unknown_model_fails_before_io "MobileNetV3" none (fun _ => true) [] initialCache
      (by decide) (by decide)).1,
   (unknown_model_fails_before_io "MobileNetV3" none (fun _ => true) [] initialCache
      (by decide) (by decide)).2.1⟩

/-- Claim C6: for an upload that is not a valid image (and a configured
model that loads), `classify()` raises the decode error before the
inference engine runs (`predictInvoked` stays false), and the boundary
around the handler converts the exception into a user-visible message
(`runBoundary` is total, so the failure never escapes the process). -/
theorem decode_error_never_reaches_inference (name path : String)
    (lo : String → Bool) (mo : List ℚ) (s : CacheState)
    (hres : resolveModel name = some path)
    (hload : (cacheGet lo s path).1.isSome) :
    (classify name (some none) lo mo s).1 = Except.error ClassifyError.decodeError
    ∧ (classify name (some none) lo mo s).2.1.predictInvoked = false
    ∧ (classify name (some none) lo mo s).2.1.decodeAttempted = true
    ∧ runBoundary name (some none) lo mo s = renderError ClassifyError.decodeError := by
  rcases hq : cacheGet lo s path with ⟨_ | m, s2⟩
  · rw [hq] at hload
    simp at hload
  · have hclass : classify name (some none) lo mo s
        = (Except.error ClassifyError.decodeError, ⟨true, true, false⟩, s2) := by
      simp only [classify, hres, hq]
    refine ⟨by rw [hclass], by rw [hclass], by rw [hclass], ?_⟩
    unfold runBoundary
    rw [hclass]

/-- Instance of `decode_error_never_reaches_inference`: MobileNetV1
selected, loads fine from the empty cache, and the upload fails to
decode. -/
theorem decode_error_never_reaches_inference_witness :
    (classify "MobileNetV1" (some none) (fun _ => true) [] initialCache).1
      = Except.error ClassifyError.decodeError
    ∧ (classify "MobileNetV1" (some none) (fun _ => true) [] initialCache).2.1.predictInvoked
      = false :=
  ⟨(decode_error_never_reaches_inference "MobileNetV1" "MobileNetV1_no_dropout.h5"
      (fun _ => true) [] initialCache (by decide) (by decide)).1,
   (decode_error_never_reaches_inference "MobileNetV1" "MobileNetV1_no_dropout.h5"
      (fun _ => true) [] initialCache (by decide) (by decide)).2.1⟩

/-- Claim C10: when the cache returns no usable model, the handler returns
before offering the upload widget, so nothing is decoded and no forward
pass runs; and when no file has been uploaded, the handler returns the
info prompt with no prediction and no exception. -/
theorem no_model_or_no_upload_returns_early (name path : String)
    (upload : Option (Option DecodedImage)) (lo : String → Bool)
    (mo : List ℚ) (s : CacheState)
    (hres : resolveModel name = some path) :
    ((cacheGet lo s path).1 = none →
      (classify name upload lo mo s).1 = Except.ok ClassifyOutcome.abortedNoModel
      ∧ (classify name upload lo mo s).2.1 = ⟨false, false, false⟩)
    ∧ ((cacheGet lo s path).1.isSome →
      (classify name none lo mo s).1 = Except.ok ClassifyOutcome.promptUpload
      ∧ (classify name none lo mo s).2.1 = ⟨true, false, false⟩) := by
  constructor
  · intro hnone
    rcases hq : cacheGet lo s path with ⟨_ | m, s2⟩
    · have hclass : classify name upload lo mo s
          = (Except.ok ClassifyOutcome.abortedNoModel, ⟨false, false, false⟩, s2) := by
        simp only [classify, hres, hq]
      exact ⟨by rw [hclass], by rw [hclass]⟩
    · rw [hq] at hnone
      simp at hnone
  · intro hsome
    rcases hq : cacheGet lo s path with ⟨_ | m, s2⟩
    · rw [hq] at hsome
      simp at hsome
    · have hclass : classify name none lo mo s
          = (Except.ok ClassifyOutcome.promptUpload, ⟨true, false, false⟩, s2) := by
        simp only [classify, hres, hq]
      exact ⟨by rw [hclass], by rw [hclass]⟩

/-- Instance of `no_model_or_no_upload_returns_early`: a failing load
environment makes the handler abort before the uploader; a succeeding one
with no upload ends at the prompt. -/
theorem no_model_or_no_upload_returns_early_witness :
    ((classify "MobileNetV1" none (fun _ => false) [] initialCache).1
      = Except.ok ClassifyOutcome.abortedNoModel)
    ∧ ((classify "MobileNetV1" none (fun _ => true) [] initialCache).1
      = Except.ok ClassifyOutcome.promptUpload) :=
  ⟨((no_model_or_no_upload_returns_early "MobileNetV1" "MobileNetV1_no_dropout.h5"
      none (fun _ => false) [] initialCache (by decide)).1 (by decide)).1,
   ((no_model_or_no_upload_returns_early "MobileNetV1" "MobileNetV1_no_dropout.h5"
      none (fun _ => true) [] initialCache (by decide)).2 (by decide)).1⟩

/-! ## Optional JPEG re-compression loop (spec section 4.3, step 2)

The application variant in src/app.py runs no compression before
inference; the spec describes the compression step of the other,
near-identical variants of the app, whose code is not under src/. -/

/-- Modelled from the spec: the iterative JPEG re-encoding loop of
`prepare(rawBytes, targetSizeKB)` from the variants not present in
src/app.py.  `enc q` is the encoded size in KB at quality `q`.  The loop
counts one re-encoding attempt per iteration: it stops once the encoded
size is within the budget, or once the quality would drop below 30,
decreasing the quality by 5 each round. -/
def compressSteps (enc : Nat → Nat) (targetKB : Nat) (q : Nat) : Nat :=
  if enc q ≤ targetKB then 1
  else if q - 5 < 30 then 1
  else 1 + compressSteps enc targetKB (q - 5)
termination_by q
decreasing_by omega

/-- Modelled from the spec: the quality at which the loop of
`prepare(rawBytes, targetSizeKB)` stops, proceeding best-effort with the
last attempt when the budget was never met. -/
def compressFinalQuality (enc : Nat → Nat) (targetKB : Nat) (q : Nat) : Nat :=
  if enc q ≤ targetKB then q
  else if q - 5 < 30 then q
  else compressFinalQuality enc targetKB (q - 5)
termination_by q
decreasing_by omega

theorem compressSteps_le (enc : Nat → Nat) (t : Nat) :
    ∀ q, 30 ≤ q → compressSteps enc t q ≤ (q - 25) / 5 := by
  intro q
  induction q using Nat.strong_induction_on with
  | _ q ih =>
    intro hq
    unfold compressSteps
    split_ifs with h1 h2
    · omega
    · omega
    · have := ih (q - 5) (by omega) (by omega)
      omega

theorem compressFinalQuality_spec (enc : Nat → Nat) (t : Nat) :
    ∀ q, 30 ≤ q → q % 5 = 0 →
      (enc (compressFinalQuality enc t q) ≤ t ∨ compressFinalQuality enc t q = 30)
      ∧ 30 ≤ compressFinalQuality enc t q ∧ compressFinalQuality enc t q ≤ q := by
  intro q
  induction q using Nat.strong_induction_on with
  | _ q ih =>
    intro hq hm
    unfold compressFinalQuality
    split_ifs with h1 h2
    · exact ⟨Or.inl h1, hq, le_refl q⟩
    · exact ⟨Or.inr (by omega), hq, le_refl q⟩
    · have h3 := ih (q - 5) (by omega) (by omega) (by omega)
      exact ⟨h3.1, h3.2.1, by omega⟩

/-- Claim C9: the re-compression loop starting at quality 85 and stepping
down by 5 terminates within 12 iterations for every input, stopping once
the encoded size fits the budget or the quality would drop below 30; its
final quality stays in the 30..85 band and, if the budget was never met,
is exactly 30 (the best-effort last attempt). -/
theorem compression_loop_terminates (enc : Nat → Nat) (t : Nat) :
    compressSteps enc t 85 ≤ 12
    ∧ (enc (compressFinalQuality enc t 85) ≤ t ∨ compressFinalQuality enc t 85 = 30)
    ∧ 30 ≤ compressFinalQuality enc t 85 ∧ compressFinalQuality enc t 85 ≤ 85 := by
  refine ⟨?_, compressFinalQuality_spec enc t 85 (by norm_num) (by norm_num)⟩
  have := compressSteps_le enc t 85 (by norm_num)
  omega

end SpiceLink
